import Mathlib

/-!
# Torus mesh of the Fruit Slicing Game (`torus.h`)

A shallow embedding of the class `Torus`: the procedural geometry built by
`setUpTorusVertexDataAndConfigureVertexAttribute`, the three constructors,
the two mutators and `drawTorusWithTexture`.

* C++ `float` / `double` values are idealised as elements of a field `α`
  (the rationals for evaluation, the reals for the trigonometric facts); the
  functions `cos` and `sin` of `<cmath>` are parameters of the generator.
* For statements about rounding, the vertex generator is given a second time
  with every floating-point operation taken from a parameter (`FloatArith`);
  without rounding it is the generator on the field
  (`generateVerticesFl_exactArith`).
* `unsigned int` arithmetic is `Nat` arithmetic reduced modulo `2 ^ 32`.
* The graphics context is an explicit state: a trace of the commands issued,
  together with the counters from which `glGen*` hands out object names.
-/

set_option autoImplicit false

namespace FruitSlicing

/-! ## Machine integers -/

/-- Reduction of a natural number to the range of `unsigned int` (32 bits). -/
def u32 (n : Nat) : Nat := n % 2 ^ 32

/-- Conversion of `size_t` to `int` (32 bits, two's complement). -/
def toInt32 (n : Nat) : Int := ((n : Int) + 2 ^ 31) % 2 ^ 32 - 2 ^ 31

/-! ## Geometry constants (`torus.h`, lines 129-132) -/

/-- Number of segments along the major circle. -/
def majorSegments : Nat := 24

/-- Number of segments along the minor circle. -/
def minorSegments : Nat := 12

section Geometry

variable {α : Type} [Field α]

/-- Radius of the major circle, `0.6f`. -/
def majorRadius : α := 0.6

/-- Radius of the minor circle, `0.25f`. -/
def minorRadius : α := 0.25

/-- Line 139: `majorAngle = 2.0f * 3.14 * i / majorSegments`. -/
def majorAngle (i : Nat) : α := 2.0 * 3.14 * (i : α) / (majorSegments : α)

/-- Line 144: `minorAngle = 2.0f * 3.14 * j / minorSegments`. -/
def minorAngle (j : Nat) : α := 2.0 * 3.14 * (j : α) / (minorSegments : α)

/-- Body of the inner vertex loop (lines 144-159): the eight floats pushed for
major step `i` and minor step `j`, given the cosine and sine of the major
angle computed by the outer loop. -/
def vertexBody (cos sin : α → α) (i : Nat) (cosMajor sinMajor : α) (j : Nat) : List α :=
  let minorAngle : α := minorAngle j
  let cosMinor := cos minorAngle
  let sinMinor := sin minorAngle
  let x := (majorRadius + minorRadius * cosMinor) * cosMajor
  let y := minorRadius * sinMinor
  let z := (majorRadius + minorRadius * cosMinor) * sinMajor
  let nx := cosMinor * cosMajor
  let ny := sinMinor
  let nz := cosMinor * sinMajor
  let u := (i : α) / (majorSegments : α)
  let v := (j : α) / (minorSegments : α)
  [x, y, z, nx, ny, nz, u, v]

/-- Inner vertex loop (lines 143-160): `for (j = 0; j <= minorSegments; ++j)`,
appending one vertex per step to `vertices`. -/
def vertexInnerLoop (cos sin : α → α) (i : Nat) (cosMajor sinMajor : α)
    (vertices : List α) : List α :=
  (List.range (minorSegments + 1)).foldl
    (fun vertices j => vertices ++ vertexBody cos sin i cosMajor sinMajor j) vertices

/-- Body of the outer vertex loop (lines 139-160). -/
def vertexOuterBody (cos sin : α → α) (vertices : List α) (i : Nat) : List α :=
  let majorAngle : α := majorAngle i
  let cosMajor := cos majorAngle
  let sinMajor := sin majorAngle
  vertexInnerLoop cos sin i cosMajor sinMajor vertices

/-- Vertex generation (lines 134-161): `for (i = 0; i <= majorSegments; ++i)`,
starting from the empty vector. -/
def generateVertices (cos sin : α → α) : List α :=
  (List.range (majorSegments + 1)).foldl (vertexOuterBody cos sin) []

end Geometry

/-- Body of the inner index loop (lines 166-170): the six indices of the two
triangles of cell `(i, j)`. -/
def indexBody (i j : Nat) : List Nat :=
  let current := u32 (i * (minorSegments + 1) + j)
  let next := u32 (u32 (current + minorSegments) + 1)
  [current, next, u32 (current + 1)] ++ [u32 (current + 1), next, u32 (next + 1)]

/-- Inner index loop (lines 165-171): `for (j = 0; j < minorSegments; ++j)`. -/
def indexInnerLoop (indices : List Nat) (i : Nat) : List Nat :=
  (List.range minorSegments).foldl (fun indices j => indices ++ indexBody i j) indices

/-- Index generation (lines 135, 164-172): `for (i = 0; i < majorSegments; ++i)`,
starting from the empty vector. -/
def generateIndices : List Nat :=
  (List.range majorSegments).foldl indexInnerLoop []

/-! ## The vertex generator on rounded arithmetic

The same loops as above, with every floating-point operation of the source
taken from a parameter instead of the exact field operation, so that rounding
can be accounted for. The carrier `F` holds the values of `float` and of
`double` alike; the widening of a `float` to `double` keeps the value and is
not recorded. -/

/-- The floating-point operations that lines 131-157 use. -/
structure FloatArith (F : Type) where
  /-- Conversion of an `int` to a floating type. -/
  ofInt : Nat → F
  /-- Value of a literal with suffix `f`, such as `0.6f`. -/
  floatLit : ℚ → F
  /-- Value of a literal without suffix, such as `3.14`. -/
  doubleLit : ℚ → F
  /-- Addition of two `float`. -/
  add : F → F → F
  /-- Product of two `float`. -/
  mul : F → F → F
  /-- Quotient of two `float`. -/
  div : F → F → F
  /-- Product of two `double`. -/
  dmul : F → F → F
  /-- Quotient of two `double`. -/
  ddiv : F → F → F
  /-- Narrowing of a `double` to `float`, on initialising a `float`. -/
  toFloat : F → F
  /-- The function `cos`, with a `float` result. -/
  cos : F → F
  /-- The function `sin`, with a `float` result. -/
  sin : F → F

/-- Arithmetic without rounding on a field: every operation is the exact one. -/
def exactArith {α : Type} [Field α] (cos sin : α → α) : FloatArith α where
  ofInt := fun n => (n : α)
  floatLit := fun q => (q : α)
  doubleLit := fun q => (q : α)
  add := fun x y => x + y
  mul := fun x y => x * y
  div := fun x y => x / y
  dmul := fun x y => x * y
  ddiv := fun x y => x / y
  toFloat := fun x => x
  cos := cos
  sin := sin

/-- Arithmetic on a field in which the product of two `float` carries the
relative error `e` and the other operations are exact. -/
def perturbedArith {α : Type} [Field α] (cos sin : α → α) (e : α) : FloatArith α :=
  { exactArith cos sin with mul := fun x y => x * y * (1 + e) }

section Rounded

variable {F : Type}

/-- Line 139 on rounded arithmetic: `2.0f * 3.14 * i / majorSegments` is
computed in `double` and narrowed to `float`. -/
def majorAngleFl (A : FloatArith F) (i : Nat) : F :=
  A.toFloat (A.ddiv (A.dmul (A.dmul (A.floatLit 2.0) (A.doubleLit 3.14)) (A.ofInt i))
    (A.ofInt majorSegments))

/-- Line 144 on rounded arithmetic. -/
def minorAngleFl (A : FloatArith F) (j : Nat) : F :=
  A.toFloat (A.ddiv (A.dmul (A.dmul (A.floatLit 2.0) (A.doubleLit 3.14)) (A.ofInt j))
    (A.ofInt minorSegments))

/-- Body of the inner vertex loop (lines 144-159) on rounded arithmetic. -/
def vertexBodyFl (A : FloatArith F) (i : Nat) (cosMajor sinMajor : F) (j : Nat) : List F :=
  let majorRadius : F := A.floatLit 0.6
  let minorRadius : F := A.floatLit 0.25
  let minorAngle : F := minorAngleFl A j
  let cosMinor := A.cos minorAngle
  let sinMinor := A.sin minorAngle
  let x := A.mul (A.add majorRadius (A.mul minorRadius cosMinor)) cosMajor
  let y := A.mul minorRadius sinMinor
  let z := A.mul (A.add majorRadius (A.mul minorRadius cosMinor)) sinMajor
  let nx := A.mul cosMinor cosMajor
  let ny := sinMinor
  let nz := A.mul cosMinor sinMajor
  let u := A.div (A.ofInt i) (A.ofInt majorSegments)
  let v := A.div (A.ofInt j) (A.ofInt minorSegments)
  [x, y, z, nx, ny, nz, u, v]

/-- Inner vertex loop (lines 143-160) on rounded arithmetic. -/
def vertexInnerLoopFl (A : FloatArith F) (i : Nat) (cosMajor sinMajor : F)
    (vertices : List F) : List F :=
  (List.range (minorSegments + 1)).foldl
    (fun vertices j => vertices ++ vertexBodyFl A i cosMajor sinMajor j) vertices

/-- Body of the outer vertex loop (lines 139-160) on rounded arithmetic. -/
def vertexOuterBodyFl (A : FloatArith F) (vertices : List F) (i : Nat) : List F :=
  let majorAngle : F := majorAngleFl A i
  let cosMajor := A.cos majorAngle
  let sinMajor := A.sin majorAngle
  vertexInnerLoopFl A i cosMajor sinMajor vertices

/-- Vertex generation (lines 134-161) on rounded arithmetic. -/
def generateVerticesFl (A : FloatArith F) : List F :=
  (List.range (majorSegments + 1)).foldl (vertexOuterBodyFl A) []

end Rounded

/-! ## Graphics context and collaborators -/

/-- The vector type `glm::vec3`. -/
structure Vec3 (α : Type) where
  x : α
  y : α
  z : α

/-- The matrix type `glm::mat4`. -/
abbrev Mat4 (α : Type) : Type := Fin 4 → Fin 4 → α

/-- The enumerants of the graphics interface that `torus.h` mentions. -/
inductive GLenum where
  | GL_ARRAY_BUFFER
  | GL_ELEMENT_ARRAY_BUFFER
  | GL_STATIC_DRAW
  | GL_FLOAT
  | GL_UNSIGNED_INT
  | GL_TEXTURE0
  | GL_TEXTURE1
  | GL_TEXTURE_2D
  | GL_TRIANGLES
  deriving DecidableEq, Repr

/-- What a `glBufferData` call copies out of client memory. -/
inductive BufferPayload (α : Type) where
  | floats (data : List α)
  | uints (data : List Nat)

/-- One call into the graphics interface or into the shader object, with the
arguments it was given. -/
inductive GLCmd (α : Type) where
  | glGenVertexArrays (array : Nat)
  | glGenBuffers (buffer : Nat)
  | glBindVertexArray (array : Nat)
  | glBindBuffer (target : GLenum) (buffer : Nat)
  | glBufferData (target : GLenum) (size : Nat) (data : BufferPayload α) (usage : GLenum)
  | glVertexAttribPointer (index size : Nat) (ty : GLenum) (normalized : Bool)
      (stride pointer : Nat)
  | glEnableVertexAttribArray (index : Nat)
  | glActiveTexture (texture : GLenum)
  | glBindTexture (target : GLenum) (texture : Nat)
  | glDrawElements (mode : GLenum) (count : Int) (ty : GLenum) (indices : Nat)
  | shaderUse (program : Nat)
  | shaderSetInt (program : Nat) (name : String) (value : Int)
  | shaderSetFloat (program : Nat) (name : String) (value : α)
  | shaderSetMat4 (program : Nat) (name : String) (value : Mat4 α)

/-- The graphics context as explicit state: the object names that `glGen*`
hands out next, and the calls made so far. -/
structure GLContext (α : Type) where
  nextVertexArray : Nat
  nextBuffer : Nat
  trace : List (GLCmd α)

namespace GLContext

variable {α : Type}

/-- Append one call to the trace. -/
def emit (gl : GLContext α) (c : GLCmd α) : GLContext α :=
  { gl with trace := gl.trace ++ [c] }

/-- The call `glGenVertexArrays(1, &name)`: returns the generated name. -/
def glGenVertexArrays (gl : GLContext α) : Nat × GLContext α :=
  (gl.nextVertexArray,
    { gl with nextVertexArray := gl.nextVertexArray + 1,
              trace := gl.trace ++ [GLCmd.glGenVertexArrays gl.nextVertexArray] })

/-- The call `glGenBuffers(1, &name)`: returns the generated name. -/
def glGenBuffers (gl : GLContext α) : Nat × GLContext α :=
  (gl.nextBuffer,
    { gl with nextBuffer := gl.nextBuffer + 1,
              trace := gl.trace ++ [GLCmd.glGenBuffers gl.nextBuffer] })

/-- The calls made after the context was in state `before`. -/
def emittedSince (after before : GLContext α) : List (GLCmd α) :=
  after.trace.drop before.trace.length

end GLContext

/-- The payloads handed to `glBufferData` for `target`, with their byte sizes,
in the order of the calls. -/
def uploads {α : Type} (target : GLenum) (cmds : List (GLCmd α)) :
    List (Nat × BufferPayload α) :=
  cmds.filterMap fun c =>
    match c with
    | GLCmd.glBufferData t size data _ => if t = target then some (size, data) else none
    | _ => none

/-- The `glDrawElements` calls of a list of calls: mode and count of each. -/
def drawCalls {α : Type} (cmds : List (GLCmd α)) : List (GLenum × Int) :=
  cmds.filterMap fun c =>
    match c with
    | GLCmd.glDrawElements mode count _ _ => some (mode, count)
    | _ => none

/-- Modelled from the spec: the class `Shader` of `shader.h`, which is not
part of the sources at hand. The spec names its operations `use`, `setInt`,
`setFloat`, `setVec3` and `setMat4`, uniform setters addressed by name; each
is recorded as one call on the trace of the context. -/
structure Shader where
  ID : Nat

namespace Shader

variable {α : Type}

/-- Modelled from the spec: `use()` binds the shader as the active program. -/
def use (sh : Shader) (gl : GLContext α) : GLContext α :=
  gl.emit (GLCmd.shaderUse sh.ID)

/-- Modelled from the spec: `setInt(name, value)`. -/
def setInt (sh : Shader) (name : String) (value : Int) (gl : GLContext α) : GLContext α :=
  gl.emit (GLCmd.shaderSetInt sh.ID name value)

/-- Modelled from the spec: `setFloat(name, value)`. -/
def setFloat (sh : Shader) (name : String) (value : α) (gl : GLContext α) : GLContext α :=
  gl.emit (GLCmd.shaderSetFloat sh.ID name value)

/-- Modelled from the spec: `setMat4(name, mat4)`. -/
def setMat4 (sh : Shader) (name : String) (value : Mat4 α) (gl : GLContext α) :
    GLContext α :=
  gl.emit (GLCmd.shaderSetMat4 sh.ID name value)

end Shader

/-- Size of a `float` in bytes. -/
def sizeofFloat : Nat := 4

/-- Size of an `unsigned int` in bytes. -/
def sizeofUnsignedInt : Nat := 4

/-! ## The class `Torus` -/

/-- The data members of `Torus` (lines 18-31 and 122-125). -/
structure Torus (α : Type) where
  ambient : Vec3 α
  diffuse : Vec3 α
  specular : Vec3 α
  TXmin : α
  TXmax : α
  TYmin : α
  TYmax : α
  diffuseMap : Nat
  specularMap : Nat
  shininess : α
  torusVAO : Nat
  torusVBO : Nat
  torusEBO : Nat
  indexCount : Int

namespace Torus

variable {α : Type} [Field α]

/-- The default member initialisers of lines 23-26, applied to the storage
`raw` of the object before a constructor body runs; the other members keep
whatever the storage held. -/
def memberInit (raw : Torus α) : Torus α :=
  { raw with TXmin := 0.0, TXmax := 1.0, TYmin := 0.0, TYmax := 1.0 }

/-- Lines 127-200: generate the geometry, create the buffers and upload. -/
def setUpTorusVertexDataAndConfigureVertexAttribute (cos sin : α → α)
    (self : Torus α) (gl : GLContext α) : Torus α × GLContext α :=
  let vertices : List α := generateVertices cos sin
  let indices : List Nat := generateIndices
  let self := { self with indexCount := toInt32 indices.length }
  -- Generate buffers
  let (vao, gl) := gl.glGenVertexArrays
  let self := { self with torusVAO := vao }
  let (vbo, gl) := gl.glGenBuffers
  let self := { self with torusVBO := vbo }
  let (ebo, gl) := gl.glGenBuffers
  let self := { self with torusEBO := ebo }
  let gl := gl.emit (GLCmd.glBindVertexArray self.torusVAO)
  let gl := gl.emit (GLCmd.glBindBuffer GLenum.GL_ARRAY_BUFFER self.torusVBO)
  let gl := gl.emit (GLCmd.glBufferData GLenum.GL_ARRAY_BUFFER
    (vertices.length * sizeofFloat) (BufferPayload.floats vertices) GLenum.GL_STATIC_DRAW)
  let gl := gl.emit (GLCmd.glBindBuffer GLenum.GL_ELEMENT_ARRAY_BUFFER self.torusEBO)
  let gl := gl.emit (GLCmd.glBufferData GLenum.GL_ELEMENT_ARRAY_BUFFER
    (indices.length * sizeofUnsignedInt) (BufferPayload.uints indices) GLenum.GL_STATIC_DRAW)
  -- Position attribute
  let gl := gl.emit (GLCmd.glVertexAttribPointer 0 3 GLenum.GL_FLOAT false (8 * sizeofFloat) 0)
  let gl := gl.emit (GLCmd.glEnableVertexAttribArray 0)
  -- Normal attribute
  let gl := gl.emit (GLCmd.glVertexAttribPointer 1 3 GLenum.GL_FLOAT false (8 * sizeofFloat)
    (3 * sizeofFloat))
  let gl := gl.emit (GLCmd.glEnableVertexAttribArray 1)
  -- Texture coordinate attribute
  let gl := gl.emit (GLCmd.glVertexAttribPointer 2 2 GLenum.GL_FLOAT false (8 * sizeofFloat)
    (6 * sizeofFloat))
  let gl := gl.emit (GLCmd.glEnableVertexAttribArray 2)
  (self, gl)

/-- Lines 34-37: the default constructor `Torus()`. -/
def new (cos sin : α → α) (raw : Torus α) (gl : GLContext α) : Torus α × GLContext α :=
  let self := memberInit raw
  setUpTorusVertexDataAndConfigureVertexAttribute cos sin self gl

/-- Lines 39-47: the constructor `Torus(amb, diff, spec, shiny)`. -/
def newMaterial (cos sin : α → α) (amb diff spec : Vec3 α) (shiny : α)
    (raw : Torus α) (gl : GLContext α) : Torus α × GLContext α :=
  let self := memberInit raw
  let self := { self with ambient := amb }
  let self := { self with diffuse := diff }
  let self := { self with specular := spec }
  let self := { self with shininess := shiny }
  setUpTorusVertexDataAndConfigureVertexAttribute cos sin self gl

/-- Lines 49-60: the constructor
`Torus(dMap, sMap, shiny, textureXmin, textureYmin, textureXmax, textureYmax)`. -/
def newTexture (cos sin : α → α) (dMap sMap : Nat) (shiny : α)
    (textureXmin textureYmin textureXmax textureYmax : α)
    (raw : Torus α) (gl : GLContext α) : Torus α × GLContext α :=
  let self := memberInit raw
  let self := { self with diffuseMap := dMap }
  let self := { self with specularMap := sMap }
  let self := { self with shininess := shiny }
  let self := { self with TXmin := textureXmin }
  let self := { self with TYmin := textureYmin }
  let self := { self with TXmax := textureXmax }
  let self := { self with TYmax := textureYmax }
  setUpTorusVertexDataAndConfigureVertexAttribute cos sin self gl

/-- Lines 70-89: `drawTorusWithTexture(lightingShaderWithTexture, model)`.
The member function is not `const`; the object is returned as it is left. -/
def drawTorusWithTexture (self : Torus α) (lightingShaderWithTexture : Shader)
    (model : Mat4 α) (gl : GLContext α) : Torus α × GLContext α :=
  let gl := lightingShaderWithTexture.use gl
  let gl := lightingShaderWithTexture.setInt "material.diffuse" 0 gl
  let gl := lightingShaderWithTexture.setInt "material.specular" 1 gl
  let gl := lightingShaderWithTexture.setFloat "material.shininess" self.shininess gl
  -- Bind diffuse map
  let gl := gl.emit (GLCmd.glActiveTexture GLenum.GL_TEXTURE0)
  let gl := gl.emit (GLCmd.glBindTexture GLenum.GL_TEXTURE_2D self.diffuseMap)
  -- Bind specular map
  let gl := gl.emit (GLCmd.glActiveTexture GLenum.GL_TEXTURE1)
  let gl := gl.emit (GLCmd.glBindTexture GLenum.GL_TEXTURE_2D self.specularMap)
  let gl := lightingShaderWithTexture.setMat4 "model" model gl
  let gl := gl.emit (GLCmd.glBindVertexArray self.torusVAO)
  let gl := gl.emit (GLCmd.glDrawElements GLenum.GL_TRIANGLES self.indexCount
    GLenum.GL_UNSIGNED_INT 0)
  (self, gl)

/-- Lines 106-112: `setMaterialisticProperty(amb, diff, spec, shiny)`. -/
def setMaterialisticProperty (self : Torus α) (amb diff spec : Vec3 α) (shiny : α) :
    Torus α :=
  let self := { self with ambient := amb }
  let self := { self with diffuse := diff }
  let self := { self with specular := spec }
  let self := { self with shininess := shiny }
  self

/-- Lines 114-119: `setTextureProperty(dMap, sMap, shiny)`. -/
def setTextureProperty (self : Torus α) (dMap sMap : Nat) (shiny : α) : Torus α :=
  let self := { self with diffuseMap := dMap }
  let self := { self with specularMap := sMap }
  let self := { self with shininess := shiny }
  self

end Torus

/-- The state `r` reached by a constructor from the context `gl`: the member
`indexCount` is 1728, it is the length of the index vector, and the calls made
since `gl` upload to the element array buffer exactly once, namely the index
vector, with a byte size of `indexCount * sizeof(unsigned int)`. -/
def IndexCountMatchesUpload {α : Type} (gl : GLContext α) (r : Torus α × GLContext α) :
    Prop :=
  r.1.indexCount = 1728 ∧
  r.1.indexCount = (generateIndices.length : Int) ∧
  uploads GLenum.GL_ELEMENT_ARRAY_BUFFER (r.2.emittedSince gl)
    = [(r.1.indexCount.toNat * sizeofUnsignedInt, BufferPayload.uints generateIndices)]

/-! ## Loops that append blocks -/

section Blocks

variable {β : Type}

/-- A loop that appends `f x` for each `x` of `l` yields the accumulator
followed by the concatenation of the blocks. -/
theorem foldl_append_eq_flatMap {γ : Type} (f : γ → List β) (l : List γ) (init : List β) :
    l.foldl (fun acc x => acc ++ f x) init = init ++ l.flatMap f := by
  induction l generalizing init with
  | nil => simp
  | cons x xs ih => simp [List.foldl_cons, ih, List.flatMap_cons, List.append_assoc]

/-- Length of the concatenation of `n` blocks of equal length `c`. -/
theorem length_flatMap_range (f : Nat → List β) (c n : Nat)
    (hlen : ∀ i, i < n → (f i).length = c) :
    ((List.range n).flatMap f).length = c * n := by
  induction n with
  | zero => simp
  | succ n ih =>
    rw [List.range_succ, List.flatMap_append, List.length_append,
      ih (fun i hi => hlen i (Nat.lt_succ_of_lt hi))]
    simp [hlen n (Nat.lt_succ_self n), Nat.mul_succ]

/-- Entry `k` of block `i` sits at position `c * i + k` of the concatenation. -/
theorem getElem?_flatMap_range (f : Nat → List β) (c n : Nat)
    (hlen : ∀ i, i < n → (f i).length = c) (i k : Nat) (hi : i < n) (hk : k < c) :
    ((List.range n).flatMap f)[c * i + k]? = (f i)[k]? := by
  induction n with
  | zero => omega
  | succ n ih =>
    have hlen' : ∀ i, i < n → (f i).length = c := fun i hi => hlen i (Nat.lt_succ_of_lt hi)
    have hL := length_flatMap_range f c n hlen'
    rw [List.range_succ, List.flatMap_append]
    rcases Nat.lt_succ_iff_lt_or_eq.mp hi with h | h
    · have hlt : c * i + k < ((List.range n).flatMap f).length := by
        rw [hL]
        calc c * i + k < c * i + c := by omega
          _ = c * (i + 1) := by ring
          _ ≤ c * n := Nat.mul_le_mul_left c h
      rw [List.getElem?_append_left hlt]
      exact ih hlen' h
    · subst h
      have hge : ((List.range i).flatMap f).length ≤ c * i + k := by rw [hL]; omega
      rw [List.getElem?_append_right hge, hL]
      simp

end Blocks

/-! ## The generated lists as concatenations of blocks -/

/-- The block of vertices of major step `i`: one vertex per minor step. -/
theorem vertexOuterBody_eq {α : Type} [Field α] (cos sin : α → α) (vertices : List α)
    (i : Nat) :
    vertexOuterBody cos sin vertices i =
      vertices ++ (List.range (minorSegments + 1)).flatMap
        (vertexBody cos sin i (cos (majorAngle i)) (sin (majorAngle i))) := by
  simp only [vertexOuterBody, vertexInnerLoop]
  exact foldl_append_eq_flatMap _ _ _

/-- The vertex vector is the concatenation, over the major steps and then the
minor steps, of the eight floats of each vertex. -/
theorem generateVertices_eq {α : Type} [Field α] (cos sin : α → α) :
    generateVertices cos sin =
      (List.range (majorSegments + 1)).flatMap fun i =>
        (List.range (minorSegments + 1)).flatMap
          (vertexBody cos sin i (cos (majorAngle i)) (sin (majorAngle i))) := by
  have h : vertexOuterBody cos sin = fun vertices i =>
      vertices ++ (List.range (minorSegments + 1)).flatMap
        (vertexBody cos sin i (cos (majorAngle i)) (sin (majorAngle i))) := by
    funext vertices i
    exact vertexOuterBody_eq cos sin vertices i
  rw [generateVertices, h, foldl_append_eq_flatMap]
  simp

/-- The index vector is the concatenation, over the cells, of the six indices
of each cell. -/
theorem generateIndices_eq :
    generateIndices =
      (List.range majorSegments).flatMap fun i =>
        (List.range minorSegments).flatMap (indexBody i) := by
  have h : indexInnerLoop = fun indices i =>
      indices ++ (List.range minorSegments).flatMap (indexBody i) := by
    funext indices i
    simp only [indexInnerLoop]
    exact foldl_append_eq_flatMap _ _ _
  rw [generateIndices, h, foldl_append_eq_flatMap]
  simp

/-- Each vertex is eight floats. -/
theorem length_vertexBody {α : Type} [Field α] (cos sin : α → α) (i : Nat)
    (cosMajor sinMajor : α) (j : Nat) :
    (vertexBody cos sin i cosMajor sinMajor j).length = 8 := by
  simp [vertexBody]

/-- Each cell is six indices. -/
theorem length_indexBody (i j : Nat) : (indexBody i j).length = 6 := by
  simp [indexBody]

/-- Length of the vertex vector. -/
theorem length_generateVertices {α : Type} [Field α] (cos sin : α → α) :
    (generateVertices cos sin).length = 2600 := by
  rw [generateVertices_eq,
    length_flatMap_range _ (8 * (minorSegments + 1)) _ (fun i _ =>
      length_flatMap_range _ 8 _ (fun j _ => length_vertexBody cos sin i _ _ j))]
  rfl

/-- Length of the index vector. -/
theorem length_generateIndices : generateIndices.length = 1728 := by
  rw [generateIndices_eq,
    length_flatMap_range _ (6 * minorSegments) _ (fun i _ =>
      length_flatMap_range _ 6 _ (fun j _ => length_indexBody i j))]
  rfl

/-- Float `k` of the vertex of major step `i` and minor step `j`. -/
theorem getElem?_generateVertices {α : Type} [Field α] (cos sin : α → α) (i j k : Nat)
    (hi : i ≤ majorSegments) (hj : j ≤ minorSegments) (hk : k < 8) :
    (generateVertices cos sin)[8 * (i * (minorSegments + 1) + j) + k]? =
      (vertexBody cos sin i (cos (majorAngle i)) (sin (majorAngle i)) j)[k]? := by
  have hinner : ∀ i', ((List.range (minorSegments + 1)).flatMap
      (vertexBody cos sin i' (cos (majorAngle i')) (sin (majorAngle i')))).length
        = 8 * (minorSegments + 1) := fun i' =>
    length_flatMap_range _ 8 _ (fun j' _ => length_vertexBody cos sin i' _ _ j')
  have hpos : 8 * (i * (minorSegments + 1) + j) + k
      = 8 * (minorSegments + 1) * i + (8 * j + k) := by ring
  have hjk : 8 * j + k < 8 * (minorSegments + 1) := by omega
  rw [generateVertices_eq, hpos,
    getElem?_flatMap_range _ (8 * (minorSegments + 1)) _ (fun i' _ => hinner i') i _
      (Nat.lt_succ_of_le hi) hjk]
  exact getElem?_flatMap_range _ 8 _ (fun j' _ => length_vertexBody cos sin i _ _ j') j k
    (Nat.lt_succ_of_le hj) hk

/-- Entry `k` of the cell of major step `i` and minor step `j`. -/
theorem getElem?_generateIndices (i j k : Nat)
    (hi : i < majorSegments) (hj : j < minorSegments) (hk : k < 6) :
    generateIndices[6 * (i * minorSegments + j) + k]? = (indexBody i j)[k]? := by
  have hinner : ∀ i', ((List.range minorSegments).flatMap (indexBody i')).length
      = 6 * minorSegments := fun i' =>
    length_flatMap_range _ 6 _ (fun j' _ => length_indexBody i' j')
  have hpos : 6 * (i * minorSegments + j) + k = 6 * minorSegments * i + (6 * j + k) := by
    ring
  have hjk : 6 * j + k < 6 * minorSegments := by omega
  rw [generateIndices_eq, hpos,
    getElem?_flatMap_range _ (6 * minorSegments) _ (fun i' _ => hinner i') i _ hi hjk]
  exact getElem?_flatMap_range _ 6 _ (fun j' _ => length_indexBody i j') j k hj hk

/-- Every entry of the index vector belongs to some cell. -/
theorem mem_generateIndices (n : Nat) (hn : n ∈ generateIndices) :
    ∃ i j, i < majorSegments ∧ j < minorSegments ∧ n ∈ indexBody i j := by
  rw [generateIndices_eq] at hn
  simp only [List.mem_flatMap, List.mem_range] at hn
  obtain ⟨i, hi, j, hj, h⟩ := hn
  exact ⟨i, j, hi, hj, h⟩

/-- The six indices of a cell of the grid, without the reduction modulo
`2 ^ 32`, which does nothing on the grid. -/
theorem indexBody_eq (i j : Nat) (hi : i < majorSegments) (hj : j < minorSegments) :
    indexBody i j =
      [i * 13 + j, i * 13 + j + 13, i * 13 + j + 1,
       i * 13 + j + 1, i * 13 + j + 13, i * 13 + j + 13 + 1] := by
  simp only [majorSegments, minorSegments] at hi hj
  have h : ∀ n, n < 4294967296 → u32 n = n := fun n hn => Nat.mod_eq_of_lt hn
  simp only [indexBody, minorSegments]
  rw [h (i * (12 + 1) + j) (by omega), h (i * (12 + 1) + j + 12) (by omega),
    h (i * (12 + 1) + j + 12 + 1) (by omega), h (i * (12 + 1) + j + 1) (by omega),
    h (i * (12 + 1) + j + 12 + 1 + 1) (by omega)]
  rfl

/-! ## Construction -/

namespace Torus

variable {α : Type} [Field α]

/-- The calls made by the geometry set-up, from a context `gl`. -/
theorem emittedSince_setUp (cos sin : α → α) (self : Torus α) (gl : GLContext α) :
    (setUpTorusVertexDataAndConfigureVertexAttribute cos sin self gl).2.emittedSince gl =
      [GLCmd.glGenVertexArrays gl.nextVertexArray,
       GLCmd.glGenBuffers gl.nextBuffer,
       GLCmd.glGenBuffers (gl.nextBuffer + 1),
       GLCmd.glBindVertexArray gl.nextVertexArray,
       GLCmd.glBindBuffer GLenum.GL_ARRAY_BUFFER gl.nextBuffer,
       GLCmd.glBufferData GLenum.GL_ARRAY_BUFFER (2600 * 4)
         (BufferPayload.floats (generateVertices cos sin)) GLenum.GL_STATIC_DRAW,
       GLCmd.glBindBuffer GLenum.GL_ELEMENT_ARRAY_BUFFER (gl.nextBuffer + 1),
       GLCmd.glBufferData GLenum.GL_ELEMENT_ARRAY_BUFFER (1728 * 4)
         (BufferPayload.uints generateIndices) GLenum.GL_STATIC_DRAW,
       GLCmd.glVertexAttribPointer 0 3 GLenum.GL_FLOAT false 32 0,
       GLCmd.glEnableVertexAttribArray 0,
       GLCmd.glVertexAttribPointer 1 3 GLenum.GL_FLOAT false 32 12,
       GLCmd.glEnableVertexAttribArray 1,
       GLCmd.glVertexAttribPointer 2 2 GLenum.GL_FLOAT false 32 24,
       GLCmd.glEnableVertexAttribArray 2] := by
  simp [setUpTorusVertexDataAndConfigureVertexAttribute, GLContext.emittedSince,
    GLContext.emit, GLContext.glGenVertexArrays, GLContext.glGenBuffers,
    length_generateVertices, length_generateIndices, sizeofFloat, sizeofUnsignedInt]

/-- The object left by the geometry set-up. -/
theorem fst_setUp (cos sin : α → α) (self : Torus α) (gl : GLContext α) :
    (setUpTorusVertexDataAndConfigureVertexAttribute cos sin self gl).1 =
      { self with indexCount := 1728, torusVAO := gl.nextVertexArray,
                  torusVBO := gl.nextBuffer, torusEBO := gl.nextBuffer + 1 } := by
  simp [setUpTorusVertexDataAndConfigureVertexAttribute, GLContext.emit,
    GLContext.glGenVertexArrays, GLContext.glGenBuffers, length_generateIndices, toInt32]

/-- The context left by the geometry set-up does not depend on the object. -/
theorem snd_setUp (cos sin : α → α) (self self' : Torus α) (gl : GLContext α) :
    (setUpTorusVertexDataAndConfigureVertexAttribute cos sin self gl).2 =
      (setUpTorusVertexDataAndConfigureVertexAttribute cos sin self' gl).2 := by
  simp [setUpTorusVertexDataAndConfigureVertexAttribute, GLContext.emit,
    GLContext.glGenVertexArrays, GLContext.glGenBuffers]

end Torus

/-! ## Claims about the sizes of the vertex and index vectors -/

section Claims

variable {α : Type} [Field α]

/-- C1: the vertex vector holds `(M + 1) * (m + 1) = 325` vertices of eight
floats each, that is 2600 floats, and every constructor uploads exactly this
vector, as 2600 floats of four bytes, to the array buffer. -/
theorem vertex_count_every_constructor (cos sin : α → α) (raw : Torus α)
    (gl : GLContext α) (amb diff spec : Vec3 α) (shiny : α) (dMap sMap : Nat)
    (textureXmin textureYmin textureXmax textureYmax : α) :
    (generateVertices cos sin).length = 8 * ((majorSegments + 1) * (minorSegments + 1)) ∧
    (majorSegments + 1) * (minorSegments + 1) = 325 ∧
    (generateVertices cos sin).length = 2600 ∧
    uploads GLenum.GL_ARRAY_BUFFER ((Torus.new cos sin raw gl).2.emittedSince gl)
      = [(2600 * 4, BufferPayload.floats (generateVertices cos sin))] ∧
    uploads GLenum.GL_ARRAY_BUFFER
        ((Torus.newMaterial cos sin amb diff spec shiny raw gl).2.emittedSince gl)
      = [(2600 * 4, BufferPayload.floats (generateVertices cos sin))] ∧
    uploads GLenum.GL_ARRAY_BUFFER
        ((Torus.newTexture cos sin dMap sMap shiny textureXmin textureYmin textureXmax
          textureYmax raw gl).2.emittedSince gl)
      = [(2600 * 4, BufferPayload.floats (generateVertices cos sin))] := by
  refine ⟨?_, rfl, length_generateVertices cos sin, ?_, ?_, ?_⟩
  · rw [length_generateVertices]; rfl
  · simp [Torus.new, Torus.emittedSince_setUp, uploads]
  · simp [Torus.newMaterial, Torus.emittedSince_setUp, uploads]
  · simp [Torus.newTexture, Torus.emittedSince_setUp, uploads]

/-- C2: the index vector has `M * m * 6 = 1728` entries; after each of the
three constructors the member `indexCount` is 1728, the length of the index
vector, and the one upload to the element array buffer is that vector with a
size of `indexCount * 4` bytes. -/
theorem index_count_matches_upload (cos sin : α → α) (raw : Torus α)
    (gl : GLContext α) (amb diff spec : Vec3 α) (shiny : α) (dMap sMap : Nat)
    (textureXmin textureYmin textureXmax textureYmax : α) :
    generateIndices.length = majorSegments * minorSegments * 6 ∧
    generateIndices.length = 1728 ∧
    IndexCountMatchesUpload gl (Torus.new cos sin raw gl) ∧
    IndexCountMatchesUpload gl (Torus.newMaterial cos sin amb diff spec shiny raw gl) ∧
    IndexCountMatchesUpload gl
      (Torus.newTexture cos sin dMap sMap shiny textureXmin textureYmin textureXmax
        textureYmax raw gl) := by
  refine ⟨?_, length_generateIndices, ?_, ?_, ?_⟩
  · rw [length_generateIndices]; rfl
  · simp [IndexCountMatchesUpload, Torus.new, Torus.emittedSince_setUp, Torus.fst_setUp,
      uploads, length_generateIndices, sizeofUnsignedInt]
  · simp [IndexCountMatchesUpload, Torus.newMaterial, Torus.emittedSince_setUp,
      Torus.fst_setUp, uploads, length_generateIndices, sizeofUnsignedInt]
  · simp [IndexCountMatchesUpload, Torus.newTexture, Torus.emittedSince_setUp,
      Torus.fst_setUp, uploads, length_generateIndices, sizeofUnsignedInt]

end Claims

/-! ## Claims about the index vector -/

/-- C3: every entry of the index vector is a valid vertex index: it is below
the vertex count `(M + 1) * (m + 1) = 325`, so the eight floats of the vertex
it names lie inside the vertex vector; the last entry, `next + 1` of the cell
`i = M - 1`, `j = m - 1`, is 324. -/
theorem indices_in_range {α : Type} [Field α] (cos sin : α → α) (k : Nat)
    (hk : k < generateIndices.length) :
    generateIndices[k] < (majorSegments + 1) * (minorSegments + 1) ∧
    generateIndices[k] < 325 ∧
    8 * generateIndices[k] + 7 < (generateVertices cos sin).length ∧
    generateIndices[6 * ((majorSegments - 1) * minorSegments + (minorSegments - 1)) + 5]?
      = some 324 := by
  obtain ⟨i, j, hi, hj, hmem⟩ := mem_generateIndices _ (List.getElem_mem hk)
  rw [indexBody_eq i j hi hj] at hmem
  simp only [majorSegments, minorSegments] at hi hj
  have hlt : generateIndices[k] < 325 := by
    simp only [List.mem_cons, List.mem_singleton, List.not_mem_nil, or_false] at hmem
    omega
  refine ⟨hlt, hlt, ?_, ?_⟩
  · rw [length_generateVertices]; omega
  · have h := getElem?_generateIndices 23 11 5 (by decide) (by decide) (by decide)
    rw [indexBody_eq 23 11 (by decide) (by decide)] at h
    exact h

/-- Witness for C3 at the last position of the index vector, over the
rationals with constant stand-ins for the trigonometric functions. -/
theorem indices_in_range_witness :
    1727 < generateIndices.length ∧
    generateIndices[1727]? = some 324 ∧ 324 < 325 ∧
    8 * 324 + 7 < (generateVertices (fun _ : ℚ => 1) (fun _ : ℚ => 0)).length := by
  have hk : 1727 < generateIndices.length := by rw [length_generateIndices]; decide
  have h := indices_in_range (fun _ : ℚ => 1) (fun _ : ℚ => 0) 1727 hk
  have h1727 : generateIndices[1727]? = some 324 := h.2.2.2
  have hget : generateIndices[1727] = 324 := by
    rw [List.getElem?_eq_getElem hk] at h1727
    exact Option.some.inj h1727
  refine ⟨hk, h1727, by decide, ?_⟩
  have h3 := h.2.2.1
  rw [hget] at h3
  exact h3

/-- C10: for the cell of major step `i < 24` and minor step `j < 12`, the six
entries at positions `6 * (i * 12 + j) ..` are `current, next, current + 1,
current + 1, next, next + 1` with `current = i * 13 + j` and
`next = current + 13`; the three indices of each triangle are pairwise
distinct, and the four indices involved are those of the grid vertices
`(i, j)`, `(i + 1, j)`, `(i, j + 1)`, `(i + 1, j + 1)`. -/
theorem index_pattern_per_cell (i j : Nat) (hi : i < 24) (hj : j < 12) :
    generateIndices[6 * (i * 12 + j)]? = some (i * 13 + j) ∧
    generateIndices[6 * (i * 12 + j) + 1]? = some (i * 13 + j + 13) ∧
    generateIndices[6 * (i * 12 + j) + 2]? = some (i * 13 + j + 1) ∧
    generateIndices[6 * (i * 12 + j) + 3]? = some (i * 13 + j + 1) ∧
    generateIndices[6 * (i * 12 + j) + 4]? = some (i * 13 + j + 13) ∧
    generateIndices[6 * (i * 12 + j) + 5]? = some (i * 13 + j + 13 + 1) ∧
    (i * 13 + j ≠ i * 13 + j + 13 ∧ i * 13 + j + 13 ≠ i * 13 + j + 1 ∧
      i * 13 + j ≠ i * 13 + j + 1) ∧
    (i * 13 + j + 1 ≠ i * 13 + j + 13 ∧ i * 13 + j + 13 ≠ i * 13 + j + 13 + 1 ∧
      i * 13 + j + 1 ≠ i * 13 + j + 13 + 1) ∧
    (i * 13 + j + 13 = (i + 1) * 13 + j ∧ i * 13 + j + 1 = i * 13 + (j + 1) ∧
      i * 13 + j + 13 + 1 = (i + 1) * 13 + (j + 1)) ∧
    (i + 1 ≤ majorSegments ∧ j + 1 ≤ minorSegments) := by
  have hi' : i < majorSegments := hi
  have hj' : j < minorSegments := hj
  have key : ∀ k, k < 6 → generateIndices[6 * (i * 12 + j) + k]? =
      [i * 13 + j, i * 13 + j + 13, i * 13 + j + 1,
       i * 13 + j + 1, i * 13 + j + 13, i * 13 + j + 13 + 1][k]? := by
    intro k hk
    have h := getElem?_generateIndices i j k hi' hj' hk
    rw [indexBody_eq i j hi' hj'] at h
    exact h
  refine ⟨key 0 (by decide), key 1 (by decide), key 2 (by decide), key 3 (by decide),
    key 4 (by decide), key 5 (by decide), ⟨by omega, by omega, by omega⟩,
    ⟨by omega, by omega, by omega⟩, ⟨by ring, by ring, by ring⟩, ?_⟩
  simp only [majorSegments, minorSegments]
  omega

/-- Witness for C10 at the last cell, `i = 23` and `j = 11`. -/
theorem index_pattern_per_cell_witness :
    23 < 24 ∧ 11 < 12 ∧
    generateIndices[1722]? = some 310 ∧ generateIndices[1723]? = some 323 ∧
    generateIndices[1724]? = some 311 ∧ generateIndices[1725]? = some 311 ∧
    generateIndices[1726]? = some 323 ∧ generateIndices[1727]? = some 324 := by
  have h := index_pattern_per_cell 23 11 (by decide) (by decide)
  exact ⟨by decide, by decide, h.1, h.2.1, h.2.2.1, h.2.2.2.1, h.2.2.2.2.1, h.2.2.2.2.2.1⟩

/-! ## Claims about the mutators, the constructors and the draw call -/

/-- C6: `setMaterialisticProperty` sets `ambient`, `diffuse`, `specular` and
`shininess` to its arguments and keeps every other member;
`setTextureProperty` sets `diffuseMap`, `specularMap` and `shininess` and
keeps every other member. Neither takes or returns the graphics context, so
the uploaded geometry is out of their reach. -/
theorem mutators_update_only_their_fields {α : Type} (t : Torus α)
    (amb diff spec : Vec3 α) (shiny : α) (dMap sMap : Nat) :
    t.setMaterialisticProperty amb diff spec shiny =
      { t with ambient := amb, diffuse := diff, specular := spec, shininess := shiny } ∧
    ((t.setMaterialisticProperty amb diff spec shiny).ambient = amb ∧
     (t.setMaterialisticProperty amb diff spec shiny).diffuse = diff ∧
     (t.setMaterialisticProperty amb diff spec shiny).specular = spec ∧
     (t.setMaterialisticProperty amb diff spec shiny).shininess = shiny ∧
     (t.setMaterialisticProperty amb diff spec shiny).diffuseMap = t.diffuseMap ∧
     (t.setMaterialisticProperty amb diff spec shiny).specularMap = t.specularMap ∧
     (t.setMaterialisticProperty amb diff spec shiny).TXmin = t.TXmin ∧
     (t.setMaterialisticProperty amb diff spec shiny).TXmax = t.TXmax ∧
     (t.setMaterialisticProperty amb diff spec shiny).TYmin = t.TYmin ∧
     (t.setMaterialisticProperty amb diff spec shiny).TYmax = t.TYmax ∧
     (t.setMaterialisticProperty amb diff spec shiny).torusVAO = t.torusVAO ∧
     (t.setMaterialisticProperty amb diff spec shiny).torusVBO = t.torusVBO ∧
     (t.setMaterialisticProperty amb diff spec shiny).torusEBO = t.torusEBO ∧
     (t.setMaterialisticProperty amb diff spec shiny).indexCount = t.indexCount) ∧
    t.setTextureProperty dMap sMap shiny =
      { t with diffuseMap := dMap, specularMap := sMap, shininess := shiny } ∧
    ((t.setTextureProperty dMap sMap shiny).diffuseMap = dMap ∧
     (t.setTextureProperty dMap sMap shiny).specularMap = sMap ∧
     (t.setTextureProperty dMap sMap shiny).shininess = shiny ∧
     (t.setTextureProperty dMap sMap shiny).ambient = t.ambient ∧
     (t.setTextureProperty dMap sMap shiny).diffuse = t.diffuse ∧
     (t.setTextureProperty dMap sMap shiny).specular = t.specular ∧
     (t.setTextureProperty dMap sMap shiny).TXmin = t.TXmin ∧
     (t.setTextureProperty dMap sMap shiny).TXmax = t.TXmax ∧
     (t.setTextureProperty dMap sMap shiny).TYmin = t.TYmin ∧
     (t.setTextureProperty dMap sMap shiny).TYmax = t.TYmax ∧
     (t.setTextureProperty dMap sMap shiny).torusVAO = t.torusVAO ∧
     (t.setTextureProperty dMap sMap shiny).torusVBO = t.torusVBO ∧
     (t.setTextureProperty dMap sMap shiny).torusEBO = t.torusEBO ∧
     (t.setTextureProperty dMap sMap shiny).indexCount = t.indexCount) :=
  ⟨rfl, ⟨rfl, rfl, rfl, rfl, rfl, rfl, rfl, rfl, rfl, rfl, rfl, rfl, rfl, rfl⟩,
   rfl, ⟨rfl, rfl, rfl, rfl, rfl, rfl, rfl, rfl, rfl, rfl, rfl, rfl, rfl, rfl⟩⟩

section ObjectClaims

variable {α : Type} [Field α]

/-- C7: from the same graphics context, the material constructor and the
texture constructor leave exactly the context that the default constructor
leaves (the same calls with the same vertex and index vectors), whatever
their arguments and whatever the storage held, and the same `indexCount` and
buffer handles; in particular two texture constructors with different
texture-coordinate windows upload the same vertex vector. -/
theorem constructors_same_geometry (cos sin : α → α) (raw raw' : Torus α)
    (gl : GLContext α) (amb diff spec : Vec3 α) (shiny shiny' : α) (dMap sMap : Nat)
    (textureXmin textureYmin textureXmax textureYmax : α)
    (textureXmin' textureYmin' textureXmax' textureYmax' : α) :
    (Torus.newMaterial cos sin amb diff spec shiny raw gl).2 = (Torus.new cos sin raw' gl).2 ∧
    (Torus.newTexture cos sin dMap sMap shiny' textureXmin textureYmin textureXmax
        textureYmax raw gl).2 = (Torus.new cos sin raw' gl).2 ∧
    (Torus.newMaterial cos sin amb diff spec shiny raw gl).1.indexCount
      = (Torus.new cos sin raw' gl).1.indexCount ∧
    (Torus.newTexture cos sin dMap sMap shiny' textureXmin textureYmin textureXmax
        textureYmax raw gl).1.indexCount = (Torus.new cos sin raw' gl).1.indexCount ∧
    uploads GLenum.GL_ARRAY_BUFFER
        ((Torus.newTexture cos sin dMap sMap shiny' textureXmin textureYmin textureXmax
          textureYmax raw gl).2.emittedSince gl)
      = uploads GLenum.GL_ARRAY_BUFFER
        ((Torus.newTexture cos sin dMap sMap shiny' textureXmin' textureYmin' textureXmax'
          textureYmax' raw gl).2.emittedSince gl) ∧
    uploads GLenum.GL_ARRAY_BUFFER
        ((Torus.newTexture cos sin dMap sMap shiny' textureXmin textureYmin textureXmax
          textureYmax raw gl).2.emittedSince gl)
      = [(2600 * 4, BufferPayload.floats (generateVertices cos sin))] ∧
    uploads GLenum.GL_ELEMENT_ARRAY_BUFFER
        ((Torus.newTexture cos sin dMap sMap shiny' textureXmin textureYmin textureXmax
          textureYmax raw gl).2.emittedSince gl)
      = [(1728 * 4, BufferPayload.uints generateIndices)] := by
  refine ⟨Torus.snd_setUp cos sin _ _ gl, Torus.snd_setUp cos sin _ _ gl, ?_, ?_, ?_, ?_, ?_⟩
  · simp [Torus.newMaterial, Torus.new, Torus.fst_setUp]
  · simp [Torus.newTexture, Torus.new, Torus.fst_setUp]
  · simp [Torus.newTexture, Torus.emittedSince_setUp]
  · simp [Torus.newTexture, Torus.emittedSince_setUp, uploads]
  · simp [Torus.newTexture, Torus.emittedSince_setUp, uploads]

/-- C8: `drawTorusWithTexture` leaves the object as it was and appends to the
trace: activation of the shader, the sampler uniforms 0 and 1, the uniform
`material.shininess` set to the member `shininess`, `diffuseMap` bound on
texture unit 0, `specularMap` bound on texture unit 1, the uniform `model`
set to the given matrix, the binding of `torusVAO`, and one indexed triangle
draw of `indexCount` indices, which is the only draw; after each of the three
constructors `indexCount` is 1728. -/
theorem drawTorusWithTexture_calls (t : Torus α) (sh : Shader) (model : Mat4 α)
    (gl : GLContext α) (cos sin : α → α) (raw : Torus α) (gl₀ : GLContext α)
    (amb diff spec : Vec3 α) (shiny : α) (dMap sMap : Nat)
    (textureXmin textureYmin textureXmax textureYmax : α) :
    (t.drawTorusWithTexture sh model gl).1 = t ∧
    (t.drawTorusWithTexture sh model gl).2 =
      { gl with trace := gl.trace ++
        [GLCmd.shaderUse sh.ID,
         GLCmd.shaderSetInt sh.ID "material.diffuse" 0,
         GLCmd.shaderSetInt sh.ID "material.specular" 1,
         GLCmd.shaderSetFloat sh.ID "material.shininess" t.shininess,
         GLCmd.glActiveTexture GLenum.GL_TEXTURE0,
         GLCmd.glBindTexture GLenum.GL_TEXTURE_2D t.diffuseMap,
         GLCmd.glActiveTexture GLenum.GL_TEXTURE1,
         GLCmd.glBindTexture GLenum.GL_TEXTURE_2D t.specularMap,
         GLCmd.shaderSetMat4 sh.ID "model" model,
         GLCmd.glBindVertexArray t.torusVAO,
         GLCmd.glDrawElements GLenum.GL_TRIANGLES t.indexCount GLenum.GL_UNSIGNED_INT 0] } ∧
    drawCalls ((t.drawTorusWithTexture sh model gl).2.emittedSince gl)
      = [(GLenum.GL_TRIANGLES, t.indexCount)] ∧
    (Torus.new cos sin raw gl₀).1.indexCount = 1728 ∧
    (Torus.newMaterial cos sin amb diff spec shiny raw gl₀).1.indexCount = 1728 ∧
    (Torus.newTexture cos sin dMap sMap shiny textureXmin textureYmin textureXmax
      textureYmax raw gl₀).1.indexCount = 1728 := by
  refine ⟨rfl, ?_, ?_, ?_, ?_, ?_⟩
  · simp [Torus.drawTorusWithTexture, Shader.use, Shader.setInt, Shader.setFloat,
      Shader.setMat4, GLContext.emit]
  · simp [Torus.drawTorusWithTexture, Shader.use, Shader.setInt, Shader.setFloat,
      Shader.setMat4, GLContext.emit, GLContext.emittedSince, drawCalls]
  · simp [Torus.new, Torus.fst_setUp]
  · simp [Torus.newMaterial, Torus.fst_setUp]
  · simp [Torus.newTexture, Torus.fst_setUp]

end ObjectClaims

/-! ## The vertex vector on rounded arithmetic -/

/-- Each vertex is eight floats, on rounded arithmetic too. -/
theorem length_vertexBodyFl {F : Type} (A : FloatArith F) (i : Nat) (cosMajor sinMajor : F)
    (j : Nat) : (vertexBodyFl A i cosMajor sinMajor j).length = 8 := by
  simp [vertexBodyFl]

/-- The vertex vector on rounded arithmetic as a concatenation of blocks. -/
theorem generateVerticesFl_eq {F : Type} (A : FloatArith F) :
    generateVerticesFl A =
      (List.range (majorSegments + 1)).flatMap fun i =>
        (List.range (minorSegments + 1)).flatMap
          (vertexBodyFl A i (A.cos (majorAngleFl A i)) (A.sin (majorAngleFl A i))) := by
  have h : vertexOuterBodyFl A = fun vertices i =>
      vertices ++ (List.range (minorSegments + 1)).flatMap
        (vertexBodyFl A i (A.cos (majorAngleFl A i)) (A.sin (majorAngleFl A i))) := by
    funext vertices i
    simp only [vertexOuterBodyFl, vertexInnerLoopFl]
    exact foldl_append_eq_flatMap _ _ _
  rw [generateVerticesFl, h, foldl_append_eq_flatMap]
  simp

/-- Float `k` of the vertex of major step `i` and minor step `j`, on rounded
arithmetic. -/
theorem getElem?_generateVerticesFl {F : Type} (A : FloatArith F) (i j k : Nat)
    (hi : i ≤ majorSegments) (hj : j ≤ minorSegments) (hk : k < 8) :
    (generateVerticesFl A)[8 * (i * (minorSegments + 1) + j) + k]? =
      (vertexBodyFl A i (A.cos (majorAngleFl A i)) (A.sin (majorAngleFl A i)) j)[k]? := by
  have hinner : ∀ i', ((List.range (minorSegments + 1)).flatMap
      (vertexBodyFl A i' (A.cos (majorAngleFl A i')) (A.sin (majorAngleFl A i')))).length
        = 8 * (minorSegments + 1) := fun i' =>
    length_flatMap_range _ 8 _ (fun j' _ => length_vertexBodyFl A i' _ _ j')
  have hpos : 8 * (i * (minorSegments + 1) + j) + k
      = 8 * (minorSegments + 1) * i + (8 * j + k) := by ring
  have hjk : 8 * j + k < 8 * (minorSegments + 1) := by omega
  rw [generateVerticesFl_eq, hpos,
    getElem?_flatMap_range _ (8 * (minorSegments + 1)) _ (fun i' _ => hinner i') i _
      (Nat.lt_succ_of_le hi) hjk]
  exact getElem?_flatMap_range _ 8 _ (fun j' _ => length_vertexBodyFl A i _ _ j') j k
    (Nat.lt_succ_of_le hj) hk

/-- Without rounding, the generator on rounded arithmetic is the generator on
the field. -/
theorem generateVerticesFl_exactArith {α : Type} [Field α] (cos sin : α → α) :
    generateVerticesFl (exactArith cos sin) = generateVertices cos sin := by
  have hmaj : ∀ i, majorAngleFl (exactArith cos sin) i = (majorAngle i : α) := by
    intro i
    simp only [majorAngleFl, majorAngle, exactArith, Rat.cast_ofScientific]
  have hmin : ∀ j, minorAngleFl (exactArith cos sin) j = (minorAngle j : α) := by
    intro j
    simp only [minorAngleFl, minorAngle, exactArith, Rat.cast_ofScientific]
  have hbody : ∀ i cM sM,
      vertexBodyFl (exactArith cos sin) i cM sM = vertexBody cos sin i cM sM := by
    intro i cM sM
    funext j
    simp only [vertexBodyFl, vertexBody, hmin]
    simp only [exactArith, majorRadius, minorRadius, Rat.cast_ofScientific]
  have hcos : (exactArith cos sin).cos = cos := rfl
  have hsin : (exactArith cos sin).sin = sin := rfl
  rw [generateVerticesFl_eq, generateVertices_eq]
  simp only [hbody, hmaj, hcos, hsin]

/-! ## Claims about the vertex data -/

/-- The eight floats of the vertex of major step `i` and minor step `j`, with
the constants of the source written out. -/
theorem getElem?_generateVertices_floats {α : Type} [Field α] (cos sin : α → α)
    (i j k : Nat) (hi : i ≤ 24) (hj : j ≤ 12) (hk : k < 8) :
    (generateVertices cos sin)[8 * (i * 13 + j) + k]? =
      [(0.6 + 0.25 * cos (minorAngle j)) * cos (majorAngle i),
       0.25 * sin (minorAngle j),
       (0.6 + 0.25 * cos (minorAngle j)) * sin (majorAngle i),
       cos (minorAngle j) * cos (majorAngle i),
       sin (minorAngle j),
       cos (minorAngle j) * sin (majorAngle i),
       (i : α) / 24, (j : α) / 12][k]? := by
  have h := getElem?_generateVertices cos sin i j k hi hj hk
  simpa only [vertexBody, majorRadius, minorRadius, majorSegments, minorSegments,
    Nat.cast_ofNat, Nat.reduceAdd] using h

/-- C9: for `i ≤ 24` and `j ≤ 12` the vertex of major step `i` and minor step
`j` has index `i * 13 + j`: it occupies the floats `8 * (i * 13 + j) ..
8 * (i * 13 + j) + 7` of the vertex vector, and they are the position
`((R + r cos b) cos a, r sin b, (R + r cos b) sin a)`, the normal
`(cos b cos a, sin b, cos b sin a)` and the texture coordinates
`(i / 24, j / 12)`, with `R = 0.6`, `r = 0.25`, `a = 2 * 3.14 * i / 24` the
major angle and `b = 2 * 3.14 * j / 12` the minor angle; the texture
coordinates lie in `[0, 1]`, are 0 at step 0 and 1 at the last step. -/
theorem vertex_layout {α : Type} [LinearOrderedField α] (cos sin : α → α) (i j : Nat)
    (hi : i ≤ 24) (hj : j ≤ 12) :
    (majorAngle i : α) = 2 * 3.14 * (i : α) / 24 ∧
    (minorAngle j : α) = 2 * 3.14 * (j : α) / 12 ∧
    (generateVertices cos sin)[8 * (i * 13 + j)]?
      = some ((0.6 + 0.25 * cos (minorAngle j)) * cos (majorAngle i)) ∧
    (generateVertices cos sin)[8 * (i * 13 + j) + 1]?
      = some (0.25 * sin (minorAngle j)) ∧
    (generateVertices cos sin)[8 * (i * 13 + j) + 2]?
      = some ((0.6 + 0.25 * cos (minorAngle j)) * sin (majorAngle i)) ∧
    (generateVertices cos sin)[8 * (i * 13 + j) + 3]?
      = some (cos (minorAngle j) * cos (majorAngle i)) ∧
    (generateVertices cos sin)[8 * (i * 13 + j) + 4]? = some (sin (minorAngle j)) ∧
    (generateVertices cos sin)[8 * (i * 13 + j) + 5]?
      = some (cos (minorAngle j) * sin (majorAngle i)) ∧
    (generateVertices cos sin)[8 * (i * 13 + j) + 6]? = some ((i : α) / 24) ∧
    (generateVertices cos sin)[8 * (i * 13 + j) + 7]? = some ((j : α) / 12) ∧
    (0 ≤ (i : α) / 24 ∧ (i : α) / 24 ≤ 1) ∧
    (0 ≤ (j : α) / 12 ∧ (j : α) / 12 ≤ 1) ∧
    (((0 : Nat) : α) / 24 = 0 ∧ ((0 : Nat) : α) / 12 = 0) ∧
    (((24 : Nat) : α) / 24 = 1 ∧ ((12 : Nat) : α) / 12 = 1) := by
  have key := fun k hk => getElem?_generateVertices_floats cos sin i j k hi hj hk
  have hi' : (i : α) ≤ 24 := by exact_mod_cast hi
  have hj' : (j : α) ≤ 12 := by exact_mod_cast hj
  refine ⟨?_, ?_, key 0 (by decide), key 1 (by decide), key 2 (by decide), key 3 (by decide),
    key 4 (by decide), key 5 (by decide), key 6 (by decide), key 7 (by decide),
    ⟨by positivity, ?_⟩, ⟨by positivity, ?_⟩, ⟨by simp, by simp⟩, ⟨?_, ?_⟩⟩
  · simp only [majorAngle, majorSegments, Nat.cast_ofNat]
    norm_num
  · simp only [minorAngle, minorSegments, Nat.cast_ofNat]
    norm_num
  · exact (div_le_one (by norm_num)).mpr hi'
  · exact (div_le_one (by norm_num)).mpr hj'
  · simp only [Nat.cast_ofNat]; norm_num
  · simp only [Nat.cast_ofNat]; norm_num

/-- Witness for C9 at the last vertex, `i = 24` and `j = 12`, over the
rationals with constant stand-ins for the trigonometric functions. -/
theorem vertex_layout_witness :
    24 ≤ 24 ∧ 12 ≤ 12 ∧
    (generateVertices (fun _ : ℚ => 1) (fun _ : ℚ => 0))[8 * (24 * 13 + 12) + 6]?
      = some (((24 : Nat) : ℚ) / 24) ∧
    (generateVertices (fun _ : ℚ => 1) (fun _ : ℚ => 0))[8 * (24 * 13 + 12) + 7]?
      = some (((12 : Nat) : ℚ) / 12) := by
  have h := vertex_layout (fun _ : ℚ => 1) (fun _ : ℚ => 0) 24 12 (by decide) (by decide)
  exact ⟨by decide, by decide, h.2.2.2.2.2.2.2.2.1, h.2.2.2.2.2.2.2.2.2.1⟩

/-- Over the reals and without rounding, for `i ≤ 24` and `j ≤ 12`, the normal
stored at floats 3, 4 and 5 of the vertex of major step `i` and minor step `j`
is `(cos b cos a, sin b, cos b sin a)` and the sum of the squares of its
components is exactly 1. -/
theorem normals_unit_length_exact (i j : Nat) (hi : i ≤ 24) (hj : j ≤ 12) :
    ∃ nx ny nz : ℝ,
      (generateVertices Real.cos Real.sin)[8 * (i * 13 + j) + 3]? = some nx ∧
      (generateVertices Real.cos Real.sin)[8 * (i * 13 + j) + 4]? = some ny ∧
      (generateVertices Real.cos Real.sin)[8 * (i * 13 + j) + 5]? = some nz ∧
      nx = Real.cos (minorAngle j) * Real.cos (majorAngle i) ∧
      ny = Real.sin (minorAngle j) ∧
      nz = Real.cos (minorAngle j) * Real.sin (majorAngle i) ∧
      nx ^ 2 + ny ^ 2 + nz ^ 2 = 1 := by
  have key : ∀ k, k < 8 → (generateVertices Real.cos Real.sin)[8 * (i * 13 + j) + k]? =
      (vertexBody Real.cos Real.sin i (Real.cos (majorAngle i)) (Real.sin (majorAngle i))
        j)[k]? := fun k hk => getElem?_generateVertices Real.cos Real.sin i j k hi hj hk
  refine ⟨_, _, _, key 3 (by decide), key 4 (by decide), key 5 (by decide), rfl, rfl, rfl, ?_⟩
  have ha := Real.cos_sq_add_sin_sq (majorAngle i : ℝ)
  have hb := Real.cos_sq_add_sin_sq (minorAngle j : ℝ)
  calc (Real.cos (minorAngle j) * Real.cos (majorAngle i)) ^ 2 + Real.sin (minorAngle j) ^ 2
        + (Real.cos (minorAngle j) * Real.sin (majorAngle i)) ^ 2
      = Real.cos (minorAngle j) ^ 2
          * (Real.cos (majorAngle i) ^ 2 + Real.sin (majorAngle i) ^ 2)
        + Real.sin (minorAngle j) ^ 2 := by ring
    _ = 1 := by rw [ha, mul_one, hb]

/-- Two factors known to within `δ` give a product known to within
`2 δ + δ ^ 2`, when the exact factors are at most 1 in size. -/
theorem abs_mul_sub_mul_le (c C d D δ : ℝ) (hc : |c - C| ≤ δ) (hd : |d - D| ≤ δ)
    (hC : |C| ≤ 1) (hD : |D| ≤ 1) : |c * d - C * D| ≤ 2 * δ + δ ^ 2 := by
  have hδ : 0 ≤ δ := le_trans (abs_nonneg _) hc
  have e : c * d - C * D = (c - C) * (d - D) + C * (d - D) + (c - C) * D := by ring
  have h1 : |(c - C) * (d - D)| ≤ δ * δ := by
    rw [abs_mul]
    exact mul_le_mul hc hd (abs_nonneg _) hδ
  have h2 : |C * (d - D)| ≤ 1 * δ := by
    rw [abs_mul]
    exact mul_le_mul hC hd (abs_nonneg _) zero_le_one
  have h3 : |(c - C) * D| ≤ δ * 1 := by
    rw [abs_mul]
    exact mul_le_mul hc hD (abs_nonneg _) hδ
  rw [e]
  calc |(c - C) * (d - D) + C * (d - D) + (c - C) * D|
      ≤ |(c - C) * (d - D) + C * (d - D)| + |(c - C) * D| := abs_add _ _
    _ ≤ |(c - C) * (d - D)| + |C * (d - D)| + |(c - C) * D| := by
        linarith [abs_add ((c - C) * (d - D)) (C * (d - D))]
    _ ≤ 2 * δ + δ ^ 2 := by nlinarith

/-- A component known to within `η` has its square known to within
`η * (2 + η)`, when the exact component is at most 1 in size. -/
theorem abs_sq_sub_sq_le (n N η : ℝ) (hN : |N| ≤ 1) (h : |n - N| ≤ η) :
    |n ^ 2 - N ^ 2| ≤ η * (2 + η) := by
  have hη : 0 ≤ η := le_trans (abs_nonneg _) h
  have e : n ^ 2 - N ^ 2 = (n - N) * (2 * N + (n - N)) := by ring
  have h2 : |2 * N + (n - N)| ≤ 2 + η := by
    calc |2 * N + (n - N)| ≤ |2 * N| + |n - N| := abs_add _ _
      _ = 2 * |N| + |n - N| := by rw [abs_mul, abs_two]
      _ ≤ 2 + η := by linarith
  rw [e, abs_mul]
  exact mul_le_mul h h2 (abs_nonneg _) hη

/-- A product of two approximate cosines or sines, rounded: its distance to
the exact product. -/
theorem abs_mul_rounded_sub_le (A : FloatArith ℝ) (δ ε : ℝ) (hδ : δ ≤ 1 / 100)
    (hmul : ∀ x y : ℝ, |x * y| ≤ 2 → |A.mul x y - x * y| ≤ ε)
    (c C d D : ℝ) (hc : |c - C| ≤ δ) (hd : |d - D| ≤ δ) (hC : |C| ≤ 1) (hD : |D| ≤ 1) :
    |A.mul c d - C * D| ≤ ε + 201 / 100 * δ := by
  have hδ0 : 0 ≤ δ := le_trans (abs_nonneg _) hc
  have h1 := abs_mul_sub_mul_le c C d D δ hc hd hC hD
  have hCD : |C * D| ≤ 1 := by
    rw [abs_mul]
    calc |C| * |D| ≤ 1 * 1 := mul_le_mul hC hD (abs_nonneg _) zero_le_one
      _ = 1 := one_mul 1
  have hsq : δ ^ 2 ≤ 1 / 100 * δ := by nlinarith
  have hcd : |c * d| ≤ 2 := by
    have e : c * d = (c * d - C * D) + C * D := by ring
    calc |c * d| = |(c * d - C * D) + C * D| := by rw [← e]
      _ ≤ |c * d - C * D| + |C * D| := abs_add _ _
      _ ≤ 2 := by linarith
  have hm := hmul c d hcd
  have e : A.mul c d - C * D = (A.mul c d - c * d) + (c * d - C * D) := by ring
  calc |A.mul c d - C * D| = |(A.mul c d - c * d) + (c * d - C * D)| := by rw [← e]
    _ ≤ |A.mul c d - c * d| + |c * d - C * D| := abs_add _ _
    _ ≤ ε + 201 / 100 * δ := by linarith

/-- C5: for `i ≤ 24` and `j ≤ 12`, the normal stored at floats 3, 4 and 5 of
the vertex of major step `i` and minor step `j` has unit length. Exactly over
the reals: with the real cosine and sine and no rounding the sum of the
squares of its components is 1. Within tolerance in floating point: on any
rounded arithmetic whose `cos` and `sin` are within `δ` of the real functions
and whose `float` product is within `ε` of the exact product (for products of
size at most 2), with `δ, ε ≤ 1/100`, the sum of the squares of the stored
components differs from 1 by at most `11 δ + 5 ε`. -/
theorem normals_unit_length (A : FloatArith ℝ) (δ ε : ℝ) (hδ : δ ≤ 1 / 100)
    (hε : ε ≤ 1 / 100)
    (hcos : ∀ x : ℝ, |A.cos x - Real.cos x| ≤ δ)
    (hsin : ∀ x : ℝ, |A.sin x - Real.sin x| ≤ δ)
    (hmul : ∀ x y : ℝ, |x * y| ≤ 2 → |A.mul x y - x * y| ≤ ε)
    (i j : Nat) (hi : i ≤ 24) (hj : j ≤ 12) :
    (∃ nx ny nz : ℝ,
      (generateVertices Real.cos Real.sin)[8 * (i * 13 + j) + 3]? = some nx ∧
      (generateVertices Real.cos Real.sin)[8 * (i * 13 + j) + 4]? = some ny ∧
      (generateVertices Real.cos Real.sin)[8 * (i * 13 + j) + 5]? = some nz ∧
      nx = Real.cos (minorAngle j) * Real.cos (majorAngle i) ∧
      ny = Real.sin (minorAngle j) ∧
      nz = Real.cos (minorAngle j) * Real.sin (majorAngle i) ∧
      nx ^ 2 + ny ^ 2 + nz ^ 2 = 1) ∧
    (∃ nx ny nz : ℝ,
      (generateVerticesFl A)[8 * (i * 13 + j) + 3]? = some nx ∧
      (generateVerticesFl A)[8 * (i * 13 + j) + 4]? = some ny ∧
      (generateVerticesFl A)[8 * (i * 13 + j) + 5]? = some nz ∧
      nx = A.mul (A.cos (minorAngleFl A j)) (A.cos (majorAngleFl A i)) ∧
      ny = A.sin (minorAngleFl A j) ∧
      nz = A.mul (A.cos (minorAngleFl A j)) (A.sin (majorAngleFl A i)) ∧
      |nx ^ 2 + ny ^ 2 + nz ^ 2 - 1| ≤ 11 * δ + 5 * ε) := by
  refine ⟨normals_unit_length_exact i j hi hj, ?_⟩
  have key : ∀ k, k < 8 → (generateVerticesFl A)[8 * (i * 13 + j) + k]? =
      (vertexBodyFl A i (A.cos (majorAngleFl A i)) (A.sin (majorAngleFl A i)) j)[k]? :=
    fun k hk => getElem?_generateVerticesFl A i j k hi hj hk
  refine ⟨_, _, _, key 3 (by decide), key 4 (by decide), key 5 (by decide), rfl, rfl, rfl, ?_⟩
  show |A.mul (A.cos (minorAngleFl A j)) (A.cos (majorAngleFl A i)) ^ 2
      + A.sin (minorAngleFl A j) ^ 2
      + A.mul (A.cos (minorAngleFl A j)) (A.sin (majorAngleFl A i)) ^ 2 - 1| ≤ 11 * δ + 5 * ε
  generalize majorAngleFl A i = a
  generalize minorAngleFl A j = b
  have hδ0 : 0 ≤ δ := le_trans (abs_nonneg _) (hcos 0)
  have hε0 : 0 ≤ ε := le_trans (abs_nonneg _) (hmul 0 0 (by norm_num))
  have hCb := Real.abs_cos_le_one b
  have hCa := Real.abs_cos_le_one a
  have hSb := Real.abs_sin_le_one b
  have hSa := Real.abs_sin_le_one a
  have hx := abs_mul_rounded_sub_le A δ ε hδ hmul (A.cos b) (Real.cos b) (A.cos a)
    (Real.cos a) (hcos b) (hcos a) hCb hCa
  have hz := abs_mul_rounded_sub_le A δ ε hδ hmul (A.cos b) (Real.cos b) (A.sin a)
    (Real.sin a) (hcos b) (hsin a) hCb hSa
  have hX : |Real.cos b * Real.cos a| ≤ 1 := by
    rw [abs_mul]
    calc |Real.cos b| * |Real.cos a| ≤ 1 * 1 := mul_le_mul hCb hCa (abs_nonneg _) zero_le_one
      _ = 1 := one_mul 1
  have hZ : |Real.cos b * Real.sin a| ≤ 1 := by
    rw [abs_mul]
    calc |Real.cos b| * |Real.sin a| ≤ 1 * 1 := mul_le_mul hCb hSa (abs_nonneg _) zero_le_one
      _ = 1 := one_mul 1
  have sx := abs_sq_sub_sq_le _ _ _ hX hx
  have sy := abs_sq_sub_sq_le _ _ _ hSb (hsin b)
  have sz := abs_sq_sub_sq_le _ _ _ hZ hz
  have hone : (Real.cos b * Real.cos a) ^ 2 + Real.sin b ^ 2 + (Real.cos b * Real.sin a) ^ 2
      = 1 := by
    have ha := Real.cos_sq_add_sin_sq a
    have hb := Real.cos_sq_add_sin_sq b
    calc (Real.cos b * Real.cos a) ^ 2 + Real.sin b ^ 2 + (Real.cos b * Real.sin a) ^ 2
        = Real.cos b ^ 2 * (Real.cos a ^ 2 + Real.sin a ^ 2) + Real.sin b ^ 2 := by ring
      _ = 1 := by rw [ha, mul_one, hb]
  have e : A.mul (A.cos b) (A.cos a) ^ 2 + A.sin b ^ 2 + A.mul (A.cos b) (A.sin a) ^ 2 - 1
      = (A.mul (A.cos b) (A.cos a) ^ 2 - (Real.cos b * Real.cos a) ^ 2)
        + (A.sin b ^ 2 - Real.sin b ^ 2)
        + (A.mul (A.cos b) (A.sin a) ^ 2 - (Real.cos b * Real.sin a) ^ 2) := by
    rw [← hone]; ring
  have hη : (ε + 201 / 100 * δ) * (2 + (ε + 201 / 100 * δ))
      ≤ 41 / 20 * (ε + 201 / 100 * δ) := by
    have h0 : 0 ≤ ε + 201 / 100 * δ := by linarith
    have h1 : 2 + (ε + 201 / 100 * δ) ≤ 41 / 20 := by linarith
    calc (ε + 201 / 100 * δ) * (2 + (ε + 201 / 100 * δ))
        ≤ (ε + 201 / 100 * δ) * (41 / 20) := mul_le_mul_of_nonneg_left h1 h0
      _ = 41 / 20 * (ε + 201 / 100 * δ) := by ring
  have hδ2 : δ * (2 + δ) ≤ 201 / 100 * δ := by nlinarith
  rw [e]
  calc |(A.mul (A.cos b) (A.cos a) ^ 2 - (Real.cos b * Real.cos a) ^ 2)
        + (A.sin b ^ 2 - Real.sin b ^ 2)
        + (A.mul (A.cos b) (A.sin a) ^ 2 - (Real.cos b * Real.sin a) ^ 2)|
      ≤ |(A.mul (A.cos b) (A.cos a) ^ 2 - (Real.cos b * Real.cos a) ^ 2)
          + (A.sin b ^ 2 - Real.sin b ^ 2)|
        + |A.mul (A.cos b) (A.sin a) ^ 2 - (Real.cos b * Real.sin a) ^ 2| := abs_add _ _
    _ ≤ |A.mul (A.cos b) (A.cos a) ^ 2 - (Real.cos b * Real.cos a) ^ 2|
        + |A.sin b ^ 2 - Real.sin b ^ 2|
        + |A.mul (A.cos b) (A.sin a) ^ 2 - (Real.cos b * Real.sin a) ^ 2| := by
        linarith [abs_add (A.mul (A.cos b) (A.cos a) ^ 2 - (Real.cos b * Real.cos a) ^ 2)
          (A.sin b ^ 2 - Real.sin b ^ 2)]
    _ ≤ 11 * δ + 5 * ε := by linarith

/-- Witness for C5 at the last vertex, `i = 24` and `j = 12`, on an arithmetic
whose cosine is `1 / 2 ^ 24` too large, whose sine is `1 / 2 ^ 24` too small
and whose `float` product carries the relative error `1 / 2 ^ 25`: the sum of
the squares of the stored normal is within `16 / 2 ^ 24` of 1. -/
theorem normals_unit_length_witness :
    (1 / 2 ^ 24 : ℝ) ≤ 1 / 100 ∧
    (∀ x : ℝ, |(perturbedArith (fun x : ℝ => Real.cos x + 1 / 2 ^ 24)
        (fun x : ℝ => Real.sin x - 1 / 2 ^ 24) (1 / 2 ^ 25)).cos x - Real.cos x| ≤ 1 / 2 ^ 24) ∧
    (∀ x : ℝ, |(perturbedArith (fun x : ℝ => Real.cos x + 1 / 2 ^ 24)
        (fun x : ℝ => Real.sin x - 1 / 2 ^ 24) (1 / 2 ^ 25)).sin x - Real.sin x| ≤ 1 / 2 ^ 24) ∧
    (∀ x y : ℝ, |x * y| ≤ 2 → |(perturbedArith (fun x : ℝ => Real.cos x + 1 / 2 ^ 24)
        (fun x : ℝ => Real.sin x - 1 / 2 ^ 24) (1 / 2 ^ 25)).mul x y - x * y| ≤ 1 / 2 ^ 24) ∧
    24 ≤ 24 ∧ 12 ≤ 12 ∧
    (∃ nx ny nz : ℝ,
      (generateVertices Real.cos Real.sin)[8 * (24 * 13 + 12) + 3]? = some nx ∧
      (generateVertices Real.cos Real.sin)[8 * (24 * 13 + 12) + 4]? = some ny ∧
      (generateVertices Real.cos Real.sin)[8 * (24 * 13 + 12) + 5]? = some nz ∧
      nx = Real.cos (minorAngle 12) * Real.cos (majorAngle 24) ∧
      ny = Real.sin (minorAngle 12) ∧
      nz = Real.cos (minorAngle 12) * Real.sin (majorAngle 24) ∧
      nx ^ 2 + ny ^ 2 + nz ^ 2 = 1) ∧
    (∃ nx ny nz : ℝ,
      (generateVerticesFl (perturbedArith (fun x : ℝ => Real.cos x + 1 / 2 ^ 24)
        (fun x : ℝ => Real.sin x - 1 / 2 ^ 24) (1 / 2 ^ 25)))[8 * (24 * 13 + 12) + 3]? = some nx ∧
      (generateVerticesFl (perturbedArith (fun x : ℝ => Real.cos x + 1 / 2 ^ 24)
        (fun x : ℝ => Real.sin x - 1 / 2 ^ 24) (1 / 2 ^ 25)))[8 * (24 * 13 + 12) + 4]? = some ny ∧
      (generateVerticesFl (perturbedArith (fun x : ℝ => Real.cos x + 1 / 2 ^ 24)
        (fun x : ℝ => Real.sin x - 1 / 2 ^ 24) (1 / 2 ^ 25)))[8 * (24 * 13 + 12) + 5]? = some nz ∧
      |nx ^ 2 + ny ^ 2 + nz ^ 2 - 1| ≤ 11 * (1 / 2 ^ 24) + 5 * (1 / 2 ^ 24)) := by
  have hδ : (1 / 2 ^ 24 : ℝ) ≤ 1 / 100 := by norm_num
  have hcos : ∀ x : ℝ, |(perturbedArith (fun x : ℝ => Real.cos x + 1 / 2 ^ 24)
        (fun x : ℝ => Real.sin x - 1 / 2 ^ 24) (1 / 2 ^ 25)).cos x - Real.cos x| ≤ 1 / 2 ^ 24 := by
    intro x
    show |Real.cos x + 1 / 2 ^ 24 - Real.cos x| ≤ 1 / 2 ^ 24
    rw [add_sub_cancel_left, abs_of_nonneg (by positivity)]
  have hsin : ∀ x : ℝ, |(perturbedArith (fun x : ℝ => Real.cos x + 1 / 2 ^ 24)
        (fun x : ℝ => Real.sin x - 1 / 2 ^ 24) (1 / 2 ^ 25)).sin x - Real.sin x| ≤ 1 / 2 ^ 24 := by
    intro x
    show |Real.sin x - 1 / 2 ^ 24 - Real.sin x| ≤ 1 / 2 ^ 24
    rw [sub_sub_cancel_left, abs_neg, abs_of_nonneg (by positivity)]
  have hmul : ∀ x y : ℝ, |x * y| ≤ 2 → |(perturbedArith (fun x : ℝ => Real.cos x + 1 / 2 ^ 24)
        (fun x : ℝ => Real.sin x - 1 / 2 ^ 24) (1 / 2 ^ 25)).mul x y - x * y| ≤ 1 / 2 ^ 24 := by
    intro x y hxy
    show |x * y * (1 + 1 / 2 ^ 25) - x * y| ≤ 1 / 2 ^ 24
    have e : x * y * (1 + 1 / 2 ^ 25) - x * y = x * y * (1 / 2 ^ 25) := by ring
    rw [e, abs_mul, abs_of_nonneg (by positivity : (0 : ℝ) ≤ 1 / 2 ^ 25)]
    calc |x * y| * (1 / 2 ^ 25) ≤ 2 * (1 / 2 ^ 25) :=
          mul_le_mul_of_nonneg_right hxy (by positivity)
      _ = 1 / 2 ^ 24 := by norm_num
  have h := normals_unit_length (perturbedArith (fun x : ℝ => Real.cos x + 1 / 2 ^ 24)
        (fun x : ℝ => Real.sin x - 1 / 2 ^ 24) (1 / 2 ^ 25)) (1 / 2 ^ 24) (1 / 2 ^ 24) hδ hδ hcos hsin hmul 24 12
    (by decide) (by decide)
  obtain ⟨hexact, nx, ny, nz, h3, h4, h5, -, -, -, hb⟩ := h
  exact ⟨hδ, hcos, hsin, hmul, by decide, by decide, hexact, nx, ny, nz, h3, h4, h5, hb⟩

/-- The sine of `6.28`, the angle the code reaches at the last step of either
loop, is negative: `6.28` falls short of a full turn. -/
theorem sin_628_neg : Real.sin 6.28 < 0 := by
  have h1 := Real.pi_gt_d2
  have h2 := Real.pi_lt_d2
  rw [← Real.sin_sub_two_pi]
  apply Real.sin_neg_of_neg_of_neg_pi_lt
  · norm_num at h1 ⊢; linarith
  · norm_num at h2 ⊢; linarith

/-- C4, evaluated over the reals: at minor step 0 the vertex of major step 0
has `z = 0` while the vertex of major step 24 has `z < 0`, and at major
step 0 the vertex of minor step 0 has `y = 0` while the vertex of minor
step 12 has `y < 0`; the seam vertices do not coincide. -/
theorem seam_vertices_differ :
    (generateVertices Real.cos Real.sin)[8 * (0 * 13 + 0) + 2]? = some 0 ∧
    (generateVertices Real.cos Real.sin)[8 * (24 * 13 + 0) + 2]?
      = some (0.85 * Real.sin 6.28) ∧
    (generateVertices Real.cos Real.sin)[8 * (0 * 13 + 0) + 1]? = some 0 ∧
    (generateVertices Real.cos Real.sin)[8 * (0 * 13 + 12) + 1]?
      = some (0.25 * Real.sin 6.28) ∧
    (0.85 * Real.sin 6.28 < 0 ∧ 0.25 * Real.sin 6.28 < 0) ∧
    (generateVertices Real.cos Real.sin)[8 * (24 * 13 + 0) + 2]?
      ≠ (generateVertices Real.cos Real.sin)[8 * (0 * 13 + 0) + 2]? ∧
    (generateVertices Real.cos Real.sin)[8 * (0 * 13 + 12) + 1]?
      ≠ (generateVertices Real.cos Real.sin)[8 * (0 * 13 + 0) + 1]? := by
  have a0 : (majorAngle 0 : ℝ) = 0 := by simp [majorAngle]
  have b0 : (minorAngle 0 : ℝ) = 0 := by simp [minorAngle]
  have a24 : (majorAngle 24 : ℝ) = 6.28 := by
    simp only [majorAngle, majorSegments, Nat.cast_ofNat]; norm_num
  have b12 : (minorAngle 12 : ℝ) = 6.28 := by
    simp only [minorAngle, minorSegments, Nat.cast_ofNat]; norm_num
  have hs := sin_628_neg
  have z0 : (generateVertices Real.cos Real.sin)[8 * (0 * 13 + 0) + 2]? = some 0 := by
    have h := getElem?_generateVertices_floats Real.cos Real.sin 0 0 2 (by decide) (by decide)
      (by decide)
    rw [a0, b0] at h
    simpa using h
  have z24 : (generateVertices Real.cos Real.sin)[8 * (24 * 13 + 0) + 2]?
      = some (0.85 * Real.sin 6.28) := by
    have h := getElem?_generateVertices_floats Real.cos Real.sin 24 0 2 (by decide) (by decide)
      (by decide)
    rw [a24, b0, Real.cos_zero] at h
    rw [h]
    norm_num
  have y0 : (generateVertices Real.cos Real.sin)[8 * (0 * 13 + 0) + 1]? = some 0 := by
    have h := getElem?_generateVertices_floats Real.cos Real.sin 0 0 1 (by decide) (by decide)
      (by decide)
    rw [b0] at h
    simpa using h
  have y12 : (generateVertices Real.cos Real.sin)[8 * (0 * 13 + 12) + 1]?
      = some (0.25 * Real.sin 6.28) := by
    have h := getElem?_generateVertices_floats Real.cos Real.sin 0 12 1 (by decide) (by decide)
      (by decide)
    rw [b12] at h
    exact h
  have hz : (0.85 : ℝ) * Real.sin 6.28 < 0 := mul_neg_of_pos_of_neg (by norm_num) hs
  have hy : (0.25 : ℝ) * Real.sin 6.28 < 0 := mul_neg_of_pos_of_neg (by norm_num) hs
  refine ⟨z0, z24, y0, y12, ⟨hz, hy⟩, ?_, ?_⟩
  · rw [z24, z0]
    intro h
    exact (ne_of_lt hz) (Option.some.inj h)
  · rw [y12, y0]
    intro h
    exact (ne_of_lt hy) (Option.some.inj h)

end FruitSlicing
